import Mathlib

/-!
# Verification of `xtra`'s `MessageChannel` (src/xtra/src/message_channel.rs)

A shallow embedding of the message-channel subsystem.  The file
`message_channel.rs` is the authority for everything it defines: the
`MessageChannel` struct, its public operations (`new`, `is_connected`, `len`,
`capacity`, `is_empty`, `send`, `same_actor`, `downgrade`, `as_either`), the
`PartialEq`, `Hash`, `Clone` and `From<Address>` impls, and the erased
`MessageChannelTrait` impl for `Address`.

The collaborating modules (`crate::address`, `crate::chan`, `crate::refcount`,
`crate::send_future`) are not part of this repository snapshot; the
definitions standing in for them are marked `Modelled from the spec:` and
follow the specification's words for those collaborators.
-/

namespace Xtra

/-- The three static reference-count types of the crate
(`crate::refcount::{Strong, Weak, Either}`), used as the `Rc` type parameter
of `MessageChannel<M, R, Rc>`. -/
inductive RcType where
  | Strong
  | Weak
  | Either
deriving DecidableEq, Repr

/-- Modelled from the spec: the runtime reference-count value carried by the
underlying `chan` sender (`crate::refcount`, not in src/).  `Strong` and
`Weak` are unit markers; `Either` "is a runtime tag wrapping a fixed
Strong-or-Weak value chosen at construction, not mutable thereafter" —
represented by a fixed `Bool` (true = wraps Strong). -/
inductive RcVal : RcType → Type where
  | strong : RcVal .Strong
  | weak : RcVal .Weak
  | either (wrapsStrong : Bool) : RcVal .Either

/-- Modelled from the spec: `is_strong()` — "current strength flag".
`Strong` reports true, `Weak` false, and `Either` "delegates every operation
to the wrapped value; `is_strong()` reports the wrapped value's class". -/
def RcVal.is_strong : {rc : RcType} → RcVal rc → Bool
  | _, .strong => true
  | _, .weak => false
  | _, .either b => b

/-- Modelled from the spec: the shared mailbox — "a concurrency-safe,
optionally bounded queue plus connection-liveness state plus strong/weak
reference counters.  Identified by a stable opaque pointer."  `ptr` is that
opaque pointer identity; the remaining fields are the mailbox-wide state that
the channel's introspection operations read through the pointer. -/
structure Mailbox (M : Type) where
  ptr : Nat
  queue : List M
  capacity : Option Nat
  connected : Bool
  senderCount : Nat
  receiverCount : Nat

/-- Modelled from the spec: `Address<A, Rc>` (`crate::address`, not in src/) —
"a handle parameterized by (concrete actor type, strength) offering
`is_connected`, `len`, `capacity`, `join`, `inner_ptr`, `is_strong`,
`sender_count`, `receiver_count`, `to_weak_handle()`, `to_either_handle()`,
and `clone`".  The concrete actor type `A` appears only through
`std::any::type_name::<A>()`, represented by the `actorType` label. -/
structure Address (M : Type) (Rc : RcType) where
  mailbox : Mailbox M
  rcVal : RcVal Rc
  actorType : String

/-- The single error kind of the layer: "the mailbox's receiving side has
permanently gone away" (`crate::Error` / `Disconnected`). -/
inductive Disconnected where
  | disconnected
deriving DecidableEq, Repr

/-- A write observed by a `Hasher`: the erased hash impl issues
`write_usize` and `write_u8` calls (message_channel.rs lines 370-374). -/
inductive HashWrite where
  | usize (n : Nat)
  | u8 (n : Nat)
deriving DecidableEq, Repr

/-! ## The erased `MessageChannelTrait` impl for `Address` (lines 306-375)

Each operation below embeds the corresponding method of
`impl MessageChannelTrait<M, Rc> for Address<A, Rc>`; where the method
delegates to `self.0` (the `chan` sender, not in src/), the delegation target
is modelled from the spec as stated on the fields of `Address`/`Mailbox`. -/

/-- Embeds `fn is_connected(&self) -> bool { self.is_connected() }` — the address
delegates to the mailbox's connection-liveness state. -/
def Address.is_connected (a : Address M Rc) : Bool :=
  a.mailbox.connected

/-- Embeds `fn len(&self) -> usize { self.len() }` — "current queued-message count
for the whole mailbox". -/
def Address.len (a : Address M Rc) : Nat :=
  a.mailbox.queue.length

/-- Embeds `fn capacity(&self) -> Option<usize> { self.capacity() }`. -/
def Address.capacity (a : Address M Rc) : Option Nat :=
  a.mailbox.capacity

/-- Embeds `fn to_inner_ptr(&self) -> *const () { self.0.inner_ptr() }` — the stable
opaque pointer identifying the shared mailbox. -/
def Address.to_inner_ptr (a : Address M Rc) : Nat :=
  a.mailbox.ptr

/-- Embeds `fn is_strong(&self) -> bool { self.0.is_strong() }`. -/
def Address.is_strong (a : Address M Rc) : Bool :=
  a.rcVal.is_strong

/-- Embeds `fn sender_count(&self) -> usize { self.0.sender_count() }`. -/
def Address.sender_count (a : Address M Rc) : Nat :=
  a.mailbox.senderCount

/-- Embeds `fn receiver_count(&self) -> usize { self.0.receiver_count() }`. -/
def Address.receiver_count (a : Address M Rc) : Nat :=
  a.mailbox.receiverCount

/-- Embeds `fn actor_type(&self) -> &str { std::any::type_name::<A>() }`. -/
def Address.actor_type (a : Address M Rc) : String :=
  a.actorType

/-- Embeds `fn clone_channel(&self) -> Box<dyn ...> { Box::new(self.clone()) }` —
a fresh boxed instance over the same mailbox with the same strength
(clone of the address; "identity and strength class preserved"). -/
def Address.clone_channel (a : Address M Rc) : Address M Rc :=
  a

/-- Embeds `fn to_weak(&self) -> Box<dyn ...> { Box::new(Address(self.0.to_tx_weak())) }`.
`to_tx_weak` modelled from the spec: "`to_weak()`: produces a new Weak
instance over the same mailbox, no refcount increment". -/
def Address.to_weak (a : Address M Rc) : Address M .Weak :=
  { mailbox := a.mailbox, rcVal := .weak, actorType := a.actorType }

/-- Embeds `fn to_either(&self) -> Box<dyn ...> { Box::new(Address(self.0.to_tx_either())) }`.
`to_tx_either` modelled from the spec: "`to_either()`: produces a new
instance tagged `Either`, wrapping the current strength, over the same
mailbox". -/
def Address.to_either (a : Address M Rc) : Address M .Either :=
  { mailbox := a.mailbox, rcVal := .either a.rcVal.is_strong, actorType := a.actorType }

/-- Embeds `fn hash(&self, state: &mut dyn Hasher)` (lines 370-374):
`state.write_usize(self.0.inner_ptr() as *const _ as usize);`
`state.write_u8(self.0.is_strong() as u8);`
`let _ = state.finish();`
The hasher state is the list of writes it has received, in order; the final
`finish()` does not write. -/
def Address.hashTrait (a : Address M Rc) (state : List HashWrite) : List HashWrite :=
  state ++ [HashWrite.usize a.mailbox.ptr,
            HashWrite.u8 (if a.rcVal.is_strong then 1 else 0)]

/-- Modelled from the spec: the enqueue outcome of the asynchronous send
machinery (`crate::send_future`, not in src/).  "If the mailbox is or becomes
disconnected before the message is fully enqueued, resolves to `Disconnected`
instead of hanging or partially enqueuing.  Delivery is all-or-nothing."
Backpressure suspensions are invisible to the resolved outcome, so the model
returns either the mailbox with the message fully appended, or
`Disconnected` with no state change. -/
def Mailbox.sendEnqueue (mb : Mailbox M) (m : M) : Except Disconnected (Mailbox M) :=
  if mb.connected then
    Except.ok { mb with queue := mb.queue ++ [m] }
  else
    Except.error Disconnected.disconnected

/-! ## The public `MessageChannel<M, R, Rc>` value type (lines 72-272) -/

/-- Embeds `pub struct MessageChannel<M, R, Rc = Strong> { inner: Box<dyn ...> }`.
The erased `inner` is the boxed `Address` that `MessageChannel::new` stores
(the only `MessageChannelTrait` impl in the file is the one for `Address`).
`M` is the message type and `R` the handler return type; both are phantom at
this layer except through the mailbox's queue. -/
structure MessageChannel (M R : Type) (Rc : RcType) where
  inner : Address M Rc

/-- Embeds `pub fn new<A>(address: Address<A, Rc>) -> Self`
(lines 84-92): `Self { inner: Box::new(address) }`. -/
def MessageChannel.new (R : Type) (address : Address M Rc) : MessageChannel M R Rc :=
  { inner := address }

/-- Embeds `impl From<Address<A, Rc>> for MessageChannel<M, R, Rc>` (lines 165-175):
`fn from(address) { MessageChannel::new(address) }`. -/
def MessageChannel.fromAddress (R : Type) (address : Address M Rc) : MessageChannel M R Rc :=
  MessageChannel.new R address

/-- Embeds `pub fn is_connected(&self) -> bool { self.inner.is_connected() }`. -/
def MessageChannel.is_connected (c : MessageChannel M R Rc) : Bool :=
  c.inner.is_connected

/-- Embeds `pub fn len(&self) -> usize { self.inner.len() }`. -/
def MessageChannel.len (c : MessageChannel M R Rc) : Nat :=
  c.inner.len

/-- Embeds `pub fn capacity(&self) -> Option<usize> { self.inner.capacity() }`. -/
def MessageChannel.capacity (c : MessageChannel M R Rc) : Option Nat :=
  c.inner.capacity

/-- Embeds `pub fn is_empty(&self) -> bool { self.len() == 0 }` (lines 117-119). -/
def MessageChannel.is_empty (c : MessageChannel M R Rc) : Bool :=
  c.len == 0

/-- Embeds `pub fn send(&self, message: M) -> SendFuture<...>` (lines 125-127),
resolved against the spec-modelled enqueue outcome on the channel's
mailbox. -/
def MessageChannel.send (c : MessageChannel M R Rc) (m : M) : Except Disconnected (Mailbox M) :=
  c.inner.mailbox.sendEnqueue m

/-- Embeds `pub fn same_actor<Rc2>(&self, other: &MessageChannel<M, R, Rc2>) -> bool`
(lines 135-140): `self.inner.to_inner_ptr() == other.inner.to_inner_ptr()`.
Generic over the other channel's reference-count type, as in the source. -/
def MessageChannel.same_actor (c : MessageChannel M R Rc) (other : MessageChannel M R Rc2) : Bool :=
  c.inner.to_inner_ptr == other.inner.to_inner_ptr

/-- Embeds `impl PartialEq for MessageChannel` (lines 201-210):
`fn eq(&self, other: &Self) -> bool {`
`  self.same_actor(other) && (self.inner.is_strong() == other.inner.is_strong())`
`}`.
The body is stated over an arbitrary `Rc2` so that the spec's cross-strength
comparisons are expressible; Rust's `PartialEq` instantiates `Rc2 := Rc`. -/
def MessageChannel.eq (c : MessageChannel M R Rc) (other : MessageChannel M R Rc2) : Bool :=
  c.same_actor other && (c.inner.is_strong == other.inner.is_strong)

/-- Embeds `impl Hash for MessageChannel` (lines 212-221):
`fn hash<H: Hasher>(&self, state: &mut H) { self.inner.hash(state) }`. -/
def MessageChannel.hashChan (c : MessageChannel M R Rc) (state : List HashWrite) : List HashWrite :=
  c.inner.hashTrait state

/-- Embeds `impl Clone for MessageChannel` (lines 223-232):
`fn clone(&self) { Self { inner: self.inner.clone_channel() } }`. -/
def MessageChannel.clone (c : MessageChannel M R Rc) : MessageChannel M R Rc :=
  { inner := c.inner.clone_channel }

/-- Embeds `impl<M, R> MessageChannel<M, R, Strong>` (lines 234-245):
`pub fn downgrade(&self) -> MessageChannel<M, R, Weak> {`
`  MessageChannel { inner: self.inner.to_weak() } }`. -/
def MessageChannel.downgrade (c : MessageChannel M R .Strong) : MessageChannel M R .Weak :=
  { inner := c.inner.to_weak }

/-- Embeds `impl<M, R> MessageChannel<M, R, Either>` (lines 247-258): the second
`downgrade` impl, exposed on static strength `Either`. -/
def MessageChannel.downgradeEither (c : MessageChannel M R .Either) : MessageChannel M R .Weak :=
  { inner := c.inner.to_weak }

/-- Embeds `pub fn as_either(&self) -> MessageChannel<M, R, Either>` (lines 266-272):
`MessageChannel { inner: self.inner.to_either() }`. -/
def MessageChannel.as_either (c : MessageChannel M R Rc) : MessageChannel M R .Either :=
  { inner := c.inner.to_either }

/-- Embeds `pub fn is_strong` is not on `MessageChannel` directly in the source; the
claims' `c.is_strong()` reads the erased instance's flag, as `eq` does. -/
def MessageChannel.is_strong (c : MessageChannel M R Rc) : Bool :=
  c.inner.is_strong

/-- The identity key of a channel as the spec defines it: "(mailbox pointer,
current `is_strong` flag)". -/
def MessageChannel.identityKey (c : MessageChannel M R Rc) : Nat × Bool :=
  (c.inner.to_inner_ptr, c.inner.is_strong)

/-! ## Helper lemmas on the strength model -/

/-- Every runtime value of static strength `Strong` reports `is_strong = true`. -/
theorem RcVal.is_strong_of_strong : ∀ v : RcVal RcType.Strong, v.is_strong = true
  | .strong => rfl

/-- Every runtime value of static strength `Weak` reports `is_strong = false`. -/
theorem RcVal.is_strong_of_weak : ∀ v : RcVal RcType.Weak, v.is_strong = false
  | .weak => rfl

/-! ## Concrete channels used by the witnesses

Two mailboxes sharing the pointer `7` but differing in every other field, a
distinct mailbox at pointer `9`, and a disconnected mailbox at pointer `5`. -/

def mbA : Mailbox Nat :=
  { ptr := 7, queue := [], capacity := none, connected := true,
    senderCount := 1, receiverCount := 1 }

def mbA' : Mailbox Nat :=
  { ptr := 7, queue := [10, 20], capacity := some 4, connected := false,
    senderCount := 3, receiverCount := 2 }

def mbB : Mailbox Nat :=
  { ptr := 9, queue := [], capacity := none, connected := true,
    senderCount := 1, receiverCount := 1 }

def mbDead : Mailbox Nat :=
  { ptr := 5, queue := [], capacity := some 2, connected := false,
    senderCount := 1, receiverCount := 0 }

def chanStrongA : MessageChannel Nat Nat RcType.Strong :=
  MessageChannel.new Nat { mailbox := mbA, rcVal := .strong, actorType := "Alice" }

def chanStrongA' : MessageChannel Nat Nat RcType.Strong :=
  MessageChannel.new Nat { mailbox := mbA', rcVal := .strong, actorType := "Bob" }

def chanWeakA : MessageChannel Nat Nat RcType.Weak :=
  MessageChannel.new Nat { mailbox := mbA, rcVal := .weak, actorType := "Alice" }

def chanEitherA : MessageChannel Nat Nat RcType.Either :=
  MessageChannel.new Nat { mailbox := mbA, rcVal := .either true, actorType := "Alice" }

def chanStrongB : MessageChannel Nat Nat RcType.Strong :=
  MessageChannel.new Nat { mailbox := mbB, rcVal := .strong, actorType := "Bob" }

def chanStrongB' : MessageChannel Nat Nat RcType.Strong :=
  MessageChannel.new Nat { mailbox := mbB, rcVal := .strong, actorType := "Carol" }

def chanDead : MessageChannel Nat Nat RcType.Strong :=
  MessageChannel.new Nat { mailbox := mbDead, rcVal := .strong, actorType := "Alice" }

/-! ## The claims -/

/-- C1: for every pair of message channels of the same message, return, and
reference-count types, `eq` returns true iff their identity keys match, i.e.
their mailbox pointers (`to_inner_ptr`) are equal and their runtime
`is_strong` flags are equal. -/
theorem eq_iff_identity_key {M R : Type} {Rc : RcType}
    (c1 c2 : MessageChannel M R Rc) :
    c1.eq c2 = true ↔
      (c1.inner.to_inner_ptr = c2.inner.to_inner_ptr ∧
        c1.inner.is_strong = c2.inner.is_strong) := by
  simp [MessageChannel.eq, MessageChannel.same_actor, Bool.and_eq_true, beq_iff_eq]

/-- C2: two channel instances sharing the same mailbox pointer and the same
`is_strong` flag hash to identical output, and the hash input is exactly the
pointer written as a usize followed by the strength flag as a distinct u8
byte. -/
theorem hash_identical_and_flag_separate {M R : Type} {Rc Rc2 : RcType}
    (c1 : MessageChannel M R Rc) (c2 : MessageChannel M R Rc2)
    (state : List HashWrite)
    (hp : c1.inner.to_inner_ptr = c2.inner.to_inner_ptr)
    (hs : c1.inner.is_strong = c2.inner.is_strong) :
    c1.hashChan state = c2.hashChan state ∧
      c1.hashChan state =
        state ++ [HashWrite.usize c1.inner.to_inner_ptr,
                  HashWrite.u8 (if c1.inner.is_strong then 1 else 0)] := by
  constructor
  · have h1 : c1.inner.mailbox.ptr = c2.inner.mailbox.ptr := hp
    have h2 : c1.inner.rcVal.is_strong = c2.inner.rcVal.is_strong := hs
    simp only [MessageChannel.hashChan, Address.hashTrait, h1, h2]
  · rfl

/-- Witness for C2: a Strong channel and an Either-wrapping-Strong channel
over pointer 7 (with different queues, capacities, connection states, counts
and actor labels) hash identically, and the output is the pointer usize then
the strength u8. -/
theorem hash_identical_and_flag_separate_witness :
    chanStrongA.inner.to_inner_ptr = chanStrongA'.inner.to_inner_ptr ∧
    chanStrongA.inner.is_strong = chanStrongA'.inner.is_strong ∧
    (chanStrongA.hashChan [] = chanStrongA'.hashChan [] ∧
      chanStrongA.hashChan [] = [HashWrite.usize 7, HashWrite.u8 1]) :=
  ⟨rfl, rfl, by
    have h := hash_identical_and_flag_separate chanStrongA chanStrongA' [] rfl rfl
    exact ⟨h.1, h.2⟩⟩

/-- C3: a Strong channel and a Weak channel over the same mailbox compare
unequal but `same_actor` returns true; `same_actor` compares only the mailbox
pointer identity — for any other channel of any reference-count type it is
exactly pointer equality, ignoring strength. -/
theorem strong_weak_unequal_but_same_actor {M R : Type}
    (c1 : MessageChannel M R RcType.Strong) (c2 : MessageChannel M R RcType.Weak)
    (h : c1.inner.mailbox.ptr = c2.inner.mailbox.ptr) :
    c1.eq c2 = false ∧ c1.same_actor c2 = true ∧
      (∀ (Rc2 : RcType) (d : MessageChannel M R Rc2),
        c1.same_actor d = (c1.inner.mailbox.ptr == d.inner.mailbox.ptr)) := by
  refine ⟨?_, ?_, fun Rc2 d => rfl⟩
  · simp [MessageChannel.eq, MessageChannel.same_actor, Address.is_strong,
      Address.to_inner_ptr, RcVal.is_strong_of_strong, RcVal.is_strong_of_weak, h]
  · simp [MessageChannel.same_actor, Address.to_inner_ptr, h]

/-- Witness for C3: the Strong and Weak channels over mailbox pointer 7 are
unequal yet `same_actor`. -/
theorem strong_weak_unequal_but_same_actor_witness :
    chanStrongA.inner.mailbox.ptr = chanWeakA.inner.mailbox.ptr ∧
    (chanStrongA.eq chanWeakA = false ∧ chanStrongA.same_actor chanWeakA = true) :=
  ⟨rfl, by
    have h := strong_weak_unequal_but_same_actor chanStrongA chanWeakA rfl
    exact ⟨h.1, h.2.1⟩⟩

/-- C4: cloning preserves the identity key: `clone c` equals `c` under the
channel equality, addresses the same actor, and has the same (pointer,
strength) identity key. -/
theorem clone_eq_and_same_actor {M R : Type} {Rc : RcType}
    (c : MessageChannel M R Rc) :
    c.clone.eq c = true ∧ c.clone.same_actor c = true ∧
      c.clone.identityKey = c.identityKey := by
  refine ⟨?_, ?_, rfl⟩
  · simp [MessageChannel.eq, MessageChannel.same_actor, MessageChannel.clone,
      Address.clone_channel]
  · simp [MessageChannel.same_actor, MessageChannel.clone, Address.clone_channel]

/-- C5: downgrading a Strong channel yields a Weak-flagged channel over the
same actor that compares unequal to the original; downgrading an Either
channel likewise yields a Weak-flagged channel over the same actor (the two
`downgrade` impl blocks, exposed on static strengths Strong and Either). -/
theorem downgrade_weak_same_actor_unequal {M R : Type}
    (c : MessageChannel M R RcType.Strong) (c' : MessageChannel M R RcType.Either) :
    (c.downgrade.is_strong = false ∧ c.downgrade.same_actor c = true ∧
      c.downgrade.eq c = false) ∧
    (c'.downgradeEither.is_strong = false ∧
      c'.downgradeEither.same_actor c' = true) := by
  refine ⟨⟨?_, ?_, ?_⟩, ?_, ?_⟩
  · rfl
  · simp [MessageChannel.same_actor, MessageChannel.downgrade, Address.to_weak,
      Address.to_inner_ptr]
  · simp [MessageChannel.eq, MessageChannel.same_actor, MessageChannel.downgrade,
      Address.to_weak, Address.to_inner_ptr, Address.is_strong,
      RcVal.is_strong_of_strong, RcVal.is_strong_of_weak]
  · simp [MessageChannel.is_strong, MessageChannel.downgradeEither, Address.to_weak,
      Address.is_strong, RcVal.is_strong_of_weak]
  · simp [MessageChannel.same_actor, MessageChannel.downgradeEither, Address.to_weak,
      Address.to_inner_ptr]

/-- C6: converting to Either preserves the runtime strength flag, the mailbox
pointer, and hence the whole identity key, so `as_either c` equals `c`. -/
theorem as_either_preserves_identity {M R : Type} {Rc : RcType}
    (c : MessageChannel M R Rc) :
    c.as_either.is_strong = c.is_strong ∧ c.as_either.eq c = true ∧
      c.as_either.identityKey = c.identityKey := by
  refine ⟨rfl, ?_, rfl⟩
  simp [MessageChannel.eq, MessageChannel.same_actor, MessageChannel.as_either,
    Address.to_either, Address.to_inner_ptr, Address.is_strong, RcVal.is_strong]

/-- C7: `is_empty` returns true iff `len` is zero; it is defined purely as
this derivation and consults no state beyond `len` — any two channels with
equal `len` have equal `is_empty`. -/
theorem is_empty_iff_len_zero {M R M2 R2 : Type} {Rc Rc2 : RcType}
    (c : MessageChannel M R Rc) (d : MessageChannel M2 R2 Rc2) :
    (c.is_empty = true ↔ c.len = 0) ∧ c.is_empty = (c.len == 0) ∧
      (c.len = d.len → c.is_empty = d.is_empty) := by
  refine ⟨?_, rfl, fun h => ?_⟩
  · simp [MessageChannel.is_empty]
  · simp [MessageChannel.is_empty, h]

/-- Witness for C7: the Strong and Weak channels over mailbox pointer 7 both
have the empty queue, and `is_empty` agrees with `len == 0` on them. -/
theorem is_empty_iff_len_zero_witness :
    (chanStrongA.is_empty = true ↔ chanStrongA.len = 0) ∧
      chanStrongA.is_empty = (chanStrongA.len == 0) ∧
      (chanStrongA.len = chanWeakA.len → chanStrongA.is_empty = chanWeakA.is_empty) :=
  is_empty_iff_len_zero chanStrongA chanWeakA

/-- C8: if the channel's mailbox is disconnected, `send` resolves to the
`Disconnected` error; and in every case delivery is all-or-nothing — the
outcome is either `Disconnected` with the mailbox unchanged, or success with
the message fully appended to the mailbox queue. -/
theorem send_disconnected_all_or_nothing {M R : Type} {Rc : RcType}
    (c : MessageChannel M R Rc) (m : M) :
    (c.is_connected = false → c.send m = Except.error Disconnected.disconnected) ∧
    (c.send m = Except.error Disconnected.disconnected ∨
      c.send m = Except.ok
        { c.inner.mailbox with queue := c.inner.mailbox.queue ++ [m] }) := by
  unfold MessageChannel.send Mailbox.sendEnqueue MessageChannel.is_connected
    Address.is_connected
  constructor
  · intro h
    rw [h]
    simp
  · by_cases h : c.inner.mailbox.connected <;> simp [h]

/-- Witness for C8: sending `3` through the channel over the disconnected
mailbox resolves to `Disconnected`. -/
theorem send_disconnected_witness :
    chanDead.is_connected = false ∧
    chanDead.send 3 = Except.error Disconnected.disconnected :=
  ⟨rfl, (send_disconnected_all_or_nothing chanDead 3).1 rfl⟩

/-- C9: two-run noninterference of equality and hashing: any two channels
agreeing on the identity key (mailbox pointer and `is_strong` flag) produce
identical `eq` verdicts against identity-key-equal counterparts and identical
hash output, regardless of actor type label, sender/receiver counts, queue
contents, capacity or connection state. -/
theorem eq_hash_noninterference {M R : Type} {Rc Rc2 : RcType}
    (c c' : MessageChannel M R Rc) (d d' : MessageChannel M R Rc2)
    (hc : c.identityKey = c'.identityKey) (hd : d.identityKey = d'.identityKey) :
    c.eq d = c'.eq d' ∧ ∀ state, c.hashChan state = c'.hashChan state := by
  simp only [MessageChannel.identityKey, Prod.mk.injEq] at hc hd
  constructor
  · simp only [MessageChannel.eq, MessageChannel.same_actor, hc.1, hc.2, hd.1, hd.2]
  · intro state
    simp only [MessageChannel.hashChan, Address.hashTrait]
    have h1 : c.inner.mailbox.ptr = c'.inner.mailbox.ptr := hc.1
    have h2 : c.inner.rcVal.is_strong = c'.inner.rcVal.is_strong := hc.2
    rw [h1, h2]

/-- Witness for C9: channels over the two pointer-7 mailboxes (different
queues, capacities, connection states, counts, actor labels) are
indistinguishable through `eq` against the pointer-9 channels and through
hashing. -/
theorem eq_hash_noninterference_witness :
    chanStrongA.identityKey = chanStrongA'.identityKey ∧
    chanStrongB.identityKey = chanStrongB'.identityKey ∧
    (chanStrongA.eq chanStrongB = chanStrongA'.eq chanStrongB' ∧
      ∀ state, chanStrongA.hashChan state = chanStrongA'.hashChan state) :=
  ⟨rfl, rfl, eq_hash_noninterference chanStrongA chanStrongA' chanStrongB chanStrongB' rfl rfl⟩

/-- C10: the `From<Address>` conversion and `MessageChannel::new` are the
same construction: `from(address)` is defined as `MessageChannel::new(address)`
and yields an identical channel for every address. -/
theorem fromAddress_eq_new {M : Type} {Rc : RcType} (R : Type)
    (address : Address M Rc) :
    MessageChannel.fromAddress R address = MessageChannel.new R address := rfl

end Xtra
